import Mathlib

/-!
Verification of the Outreach Delivery Scheduler of the Athena Sales Hub
repository: a shallow embedding, in Lean, of the send queue
(src/lib/send-queue.ts), the signal-watcher cascade and follow-up pass
(src/lib/job-processor.ts) and the identity warmup engine
(src/lib/claude.ts), together with theorems settling the spec claims.

Modelling conventions:
* Timestamps are JS epoch milliseconds as `Nat`; the local time zone is
  collapsed to UTC, so `setHours` and `getHours` act on `t % msPerDay`.
* The Prisma store is a record of entity lists; `findUnique` is `List.find?`
  by id and `update` maps over the list.
* External effects (SMTP transport, the Outlook client, the generative
  model) are parameters: their outcomes are `Except` values handed to the
  embedded function, mirroring values returned or exceptions thrown.
* `Math.random()`-derived choices are parameters reduced with `%` exactly
  where the source applies `Math.floor(Math.random() * n)`.
-/

namespace Athena

/-! ## Time model -/

abbrev Instant := Nat

def msPerMinute : Nat := 60000

def msPerHour : Nat := 3600000

def msPerDay : Nat := 86400000

/-- Models `d.setHours(0, 0, 0, 0)`: start of the current calendar day. -/
def startOfDay (t : Instant) : Instant := t / msPerDay * msPerDay

/-- Models `d.setHours(23, 59, 59, 999)`: last millisecond of the day. -/
def endOfDay (t : Instant) : Instant := startOfDay t + msPerDay - 1

/-- Models `d.setHours(h, 0, 0, 0)` on the current day. -/
def atHour (t : Instant) (h : Nat) : Instant := startOfDay t + h * msPerHour

/-- Models `d.setDate(d.getDate() + 1)` followed by `d.setHours(h, 0, 0, 0)`. -/
def nextDayAtHour (t : Instant) (h : Nat) : Instant :=
  startOfDay t + msPerDay + h * msPerHour

/-- Models `date.getHours()`. -/
def hourOf (t : Instant) : Nat := t % msPerDay / msPerHour

/-! ## Data model (Prisma schema entities, restricted to the fields the
scheduler core reads or writes) -/

inductive JobStatus
  | PENDING
  | PROCESSING
  | COMPLETED
  | DEAD
deriving DecidableEq, Repr

inductive OutreachStatus
  | SCHEDULED
  | DRAFT_CREATED
  | APPROVED
  | SENDING
  | SENT
  | FAILED
  | CANCELLED
deriving DecidableEq, Repr

inductive OutreachType
  | INITIAL
  | FOLLOWUP_1
  | FOLLOWUP_2
  | MEETING_REQUEST
  | REPLY
deriving DecidableEq, Repr

inductive ContactStatus
  | NEW
  | RESEARCHED
  | OUTREACH_STARTED
  | REPLIED
  | MEETING_SCHEDULED
  | CONVERTED
  | NOT_INTERESTED
  | BOUNCED
deriving DecidableEq, Repr

inductive WarmupStatus
  | NEW
  | WARMING
  | READY
  | PAUSED
  | FLAGGED
deriving DecidableEq, Repr

/-- A JobQueue row; the only job kind the core enqueues is "send_email",
whose payload is the outreach id. -/
structure Job where
  id : Nat
  outreachId : Nat
  priority : Int
  status : JobStatus
  attempts : Nat
  maxAttempts : Nat
  runAfter : Instant
  lastError : Option String
  startedAt : Option Instant
  completedAt : Option Instant
deriving DecidableEq, Repr

structure Outreach where
  id : Nat
  contactId : Nat
  campaignId : Option Nat
  userId : Nat
  sendingDomainId : Option Nat
  otype : OutreachType
  status : OutreachStatus
  subject : Option String
  bodyHtml : Option String
  bodyPlain : Option String
  scheduledAt : Option Instant
  sentAt : Option Instant
  parentOutreachId : Option Nat
  internetMessageId : Option String
deriving DecidableEq, Repr

structure Contact where
  id : Nat
  email : String
  status : ContactStatus
  outlookConversationId : Option String
  lastContactedAt : Option Instant
deriving DecidableEq, Repr

/-- A campaign; `followUp1Days`/`followUp2Days` are the optional fields of
its `cadenceConfig` JSON. -/
structure Campaign where
  id : Nat
  workspaceId : Nat
  followUp1Days : Option Nat
  followUp2Days : Option Nat
deriving DecidableEq, Repr

structure SendingDomain where
  id : Nat
  workspaceId : Nat
  emailAddress : String
  smtpHost : Option String
  smtpPort : Option Nat
  smtpUser : Option String
  smtpPass : Option String
  warmupStatus : WarmupStatus
  warmupDayNumber : Nat
  dailySendLimit : Nat
  healthScore : Nat
  totalSent : Nat
  totalBounced : Nat
deriving DecidableEq, Repr

structure WarmupLog where
  sendingDomainId : Nat
  date : Instant
  emailsSent : Nat
  bounces : Nat
  healthScore : Nat
deriving DecidableEq, Repr

/-- The durable store: one list per entity table. -/
structure Store where
  jobs : List Job
  outreaches : List Outreach
  contacts : List Contact
  campaigns : List Campaign
  domains : List SendingDomain
  warmupLogs : List WarmupLog
deriving DecidableEq, Repr

/-! ## Store primitives -/

/-- Models `update` on a table: apply `f` to every row whose key equals `i`
(ids are unique in practice, so at most one row changes). -/
def updListBy {α : Type} (key : α → Nat) (i : Nat) (f : α → α)
    (l : List α) : List α :=
  l.map (fun x => if key x == i then f x else x)

def findJob (s : Store) (i : Nat) : Option Job :=
  s.jobs.find? (fun j => Job.id j == i)

def findOutreach (s : Store) (i : Nat) : Option Outreach :=
  s.outreaches.find? (fun o => Outreach.id o == i)

def findContact (s : Store) (i : Nat) : Option Contact :=
  s.contacts.find? (fun c => Contact.id c == i)

def findCampaign (s : Store) (i : Nat) : Option Campaign :=
  s.campaigns.find? (fun c => Campaign.id c == i)

def findDomain (s : Store) (i : Nat) : Option SendingDomain :=
  s.domains.find? (fun d => SendingDomain.id d == i)

def updateJob (s : Store) (i : Nat) (f : Job → Job) : Store :=
  { s with jobs := updListBy Job.id i f s.jobs }

def updateOutreach (s : Store) (i : Nat) (f : Outreach → Outreach) : Store :=
  { s with outreaches := updListBy Outreach.id i f s.outreaches }

def updateContact (s : Store) (i : Nat) (f : Contact → Contact) : Store :=
  { s with contacts := updListBy Contact.id i f s.contacts }

def updateDomain (s : Store) (i : Nat) (f : SendingDomain → SendingDomain) : Store :=
  { s with domains := updListBy SendingDomain.id i f s.domains }

/-! ## send-queue.ts embedding -/

/-- The env-derived configuration of send-queue.ts: `SEND_WINDOW_START`,
`SEND_WINDOW_END`, `DAILY_EMAIL_LIMIT_PER_DOMAIN`. -/
structure SendEnv where
  windowStart : Nat
  windowEnd : Nat
  dailyEmailLimitPerDomain : Nat
deriving DecidableEq, Repr

/-- The defaults "8", "18", "20". -/
def defaultSendEnv : SendEnv := ⟨8, 18, 20⟩

/-- Embeds `getDailyDomainSendCount`: count of outreach rows for the domain with
status SENT and `sentAt` within the current calendar day. -/
def getDailyDomainSendCount (s : Store) (now : Instant) (domainId : Nat) : Nat :=
  (s.outreaches.filter (fun o =>
    o.sendingDomainId == some domainId &&
    o.status == OutreachStatus.SENT &&
    (match o.sentAt with
     | some t => decide (startOfDay now ≤ t) && decide (t ≤ endOfDay now)
     | none => false))).length

/-- Insertion step for ordering domains by `healthScore` descending,
modelling the `orderBy: { healthScore: "desc" }` of `pickSendingDomain`. -/
def insertByHealth (d : SendingDomain) : List SendingDomain → List SendingDomain
  | [] => [d]
  | e :: rest =>
    if e.healthScore ≤ d.healthScore then d :: e :: rest
    else e :: insertByHealth d rest

def sortByHealthDesc : List SendingDomain → List SendingDomain
  | [] => []
  | d :: rest => insertByHealth d (sortByHealthDesc rest)

/-- Embeds `pickSendingDomain`: among the READY domains of the workspace ordered by
health score descending, the first with remaining daily capacity. -/
def pickSendingDomain (s : Store) (now : Instant) (workspaceId : Nat) : Option Nat :=
  let domains := sortByHealthDesc (s.domains.filter (fun d =>
    d.workspaceId == workspaceId && d.warmupStatus == WarmupStatus.READY))
  (domains.find? (fun d =>
    decide (getDailyDomainSendCount s now d.id < d.dailySendLimit))).map
    (fun d => d.id)

/-- The exponential backoff of the catch block: `30_000 * Math.pow(4, job.attempts)`. -/
def backoffMs (attempts : Nat) : Nat := 30000 * 4 ^ attempts

/-- The catch block of `processEmailQueue` (lines 307-353): increment
attempts; at or past `maxAttempts` mark the job DEAD and the outreach
FAILED, otherwise return the job to PENDING with exponential backoff. -/
def handleSendFailure (s : Store) (job : Job) (outreachId : Nat)
    (now : Instant) (errMsg : String) : Store :=
  let newAttempts := job.attempts + 1
  if job.maxAttempts ≤ newAttempts then
    let s1 := updateJob s job.id (fun j =>
      { j with
        status := JobStatus.DEAD
        attempts := newAttempts
        lastError := some errMsg })
    updateOutreach s1 outreachId (fun o =>
      { o with status := OutreachStatus.FAILED })
  else
    updateJob s job.id (fun j =>
      { j with
        status := JobStatus.PENDING
        attempts := newAttempts
        lastError := some errMsg
        runAfter := now + backoffMs job.attempts
        startedAt := none })

/-- Step 1 of `processEmailQueue`: `findUniqueOrThrow` of the outreach with
its included `contact` and `campaign` relations.  `none` models the query
throwing: the outreach row is missing, or its (required) contact relation
is broken, or a non-null `campaignId` does not resolve. -/
def loadOutreachFull (s : Store) (oid : Nat) :
    Option (Outreach × Contact × Option Campaign) :=
  match findOutreach s oid with
  | none => none
  | some o =>
    match findContact s o.contactId with
    | none => none
    | some c =>
      match o.campaignId with
      | none => some (o, c, none)
      | some cid => (findCampaign s cid).map (fun cam => (o, c, some cam))

/-- The `Math.floor(Math.random() * 2)` and `Math.floor(Math.random() * 60)`
draws used to scatter follow-up schedule times. -/
structure FollowUpRand where
  r1h : Nat
  r1m : Nat
  r2h : Nat
  r2m : Nat
deriving DecidableEq, Repr

/-- Time-of-day offset assigned by
`setHours(SEND_WINDOW_START + Math.floor(Math.random()*2), Math.floor(Math.random()*60), 0, 0)`. -/
def followUpOffset (env : SendEnv) (h m : Nat) : Nat :=
  (env.windowStart + h % 2) * msPerHour + m % 60 * msPerMinute

/-- Schedule instant of a follow-up: `setDate(getDate() + days)` then the
randomized `setHours` above. -/
def followUpAt (env : SendEnv) (now : Instant) (days h m : Nat) : Instant :=
  startOfDay now + days * msPerDay + followUpOffset env h m

/-- A fresh outreach id for `createMany` (the store generates unique ids). -/
def nextOutreachId (s : Store) : Nat :=
  (s.outreaches.map (fun o => o.id)).foldr max 0 + 1

/-- One row of the `createMany` in step 8 of `processEmailQueue`: the
follow-up inherits contact, campaign, user and the `sendingDomainId` of
the loaded outreach, is SCHEDULED at the given instant, and references the
parent. -/
def followUpRow (i : Nat) (o : Outreach) (t : OutreachType)
    (sched : Instant) : Outreach :=
  { id := i
    contactId := o.contactId
    campaignId := o.campaignId
    userId := o.userId
    sendingDomainId := o.sendingDomainId
    otype := t
    status := OutreachStatus.SCHEDULED
    subject := none
    bodyHtml := none
    bodyPlain := none
    scheduledAt := some sched
    sentAt := none
    parentOutreachId := some o.id
    internetMessageId := none }

/-- The body of `processEmailQueue` (send-queue.ts lines 78-353) applied to
a job already claimed as PROCESSING.  `smtpResult` / `outlookResult` carry
the external transport outcomes: `Except.error` models the call throwing,
which control transfers to the catch block (`handleSendFailure`).  The
Outlook result pair is `(conversationId, internetMessageId)`. -/
def processClaimedEmailJob (env : SendEnv) (now : Instant)
    (smtpResult : Except String String)
    (outlookResult : Except String (String × String))
    (rand : FollowUpRand) (s : Store) (job : Job) : Store :=
  match loadOutreachFull s job.outreachId with
  | none =>
    -- findUniqueOrThrow threw: the generic retry handler runs
    handleSendFailure s job job.outreachId now "No Outreach found"
  | some (outreach, contact, campaign) =>
    -- step 2: pick a sending domain if not already assigned
    let pickRes : Option Nat :=
      match outreach.sendingDomainId, campaign with
      | none, some cam => pickSendingDomain s now cam.workspaceId
      | _, _ => none
    let sendingDomainId : Option Nat :=
      match outreach.sendingDomainId with
      | some did => some did
      | none => pickRes
    let s1 : Store :=
      match pickRes with
      | some did => updateOutreach s outreach.id (fun o =>
          { o with sendingDomainId := some did })
      | none => s
    let sendingDomain : Option SendingDomain :=
      sendingDomainId.bind (fun did => findDomain s1 did)
    -- step 3: daily limit for the sending domain
    let atCapacity : Bool :=
      match sendingDomainId with
      | some did =>
        let todaySent := getDailyDomainSendCount s1 now did
        let lim :=
          match sendingDomain with
          | some d => d.dailySendLimit
          | none => env.dailyEmailLimitPerDomain
        decide (lim ≤ todaySent)
      | none => false
    if atCapacity then
      updateJob s1 job.id (fun j =>
        { j with
          status := JobStatus.PENDING
          runAfter := nextDayAtHour now env.windowStart
          startedAt := none })
    else
      -- step 4: send window check
      if hourOf now < env.windowStart ∨ env.windowEnd ≤ hourOf now then
        let nextWindow :=
          if env.windowEnd ≤ hourOf now then nextDayAtHour now env.windowStart
          else atHour now env.windowStart
        updateJob s1 job.id (fun j =>
          { j with
            status := JobStatus.PENDING
            runAfter := nextWindow
            startedAt := none })
      else
        -- step 5: dispatch via SMTP when the domain has credentials,
        -- otherwise via the Outlook mailbox of the owning user
        let viaSmtp : Bool :=
          match sendingDomain with
          | some d => d.smtpHost.isSome && d.smtpUser.isSome && d.smtpPass.isSome
          | none => false
        let sendResult : Except String (Option String × Option String) :=
          if viaSmtp then
            match smtpResult with
            | Except.ok mid => Except.ok (some mid, none)
            | Except.error e => Except.error e
          else
            match outlookResult with
            | Except.ok (cid, mid) => Except.ok (some mid, some cid)
            | Except.error e => Except.error e
        match sendResult with
        | Except.error e => handleSendFailure s1 job outreach.id now e
        | Except.ok (messageId, conversationId) =>
          -- step 6: outreach SENT; contact conversation/last-contacted
          let s2 := updateOutreach s1 outreach.id (fun o =>
            { o with
              status := OutreachStatus.SENT
              sentAt := some now
              internetMessageId := messageId })
          let s3 := updateContact s2 outreach.contactId (fun c =>
            match conversationId with
            | some conv =>
              { c with
                outlookConversationId := some conv
                lastContactedAt := some now }
            | none => { c with lastContactedAt := some now })
          -- step 7: advance NEW/RESEARCHED contacts
          let s4 :=
            if contact.status = ContactStatus.NEW ∨
                contact.status = ContactStatus.RESEARCHED then
              updateContact s3 outreach.contactId (fun c =>
                { c with status := ContactStatus.OUTREACH_STARTED })
            else s3
          -- step 8: follow-up rows for INITIAL sends with a campaign
          let s5 :=
            match outreach.otype, campaign with
            | OutreachType.INITIAL, some cam =>
              let fu1Days := cam.followUp1Days.getD 5
              let fu2Days := cam.followUp2Days.getD 14
              let n := nextOutreachId s4
              { s4 with outreaches := s4.outreaches ++
                  [followUpRow n outreach OutreachType.FOLLOWUP_1
                     (followUpAt env now fu1Days rand.r1h rand.r1m),
                   followUpRow (n + 1) outreach OutreachType.FOLLOWUP_2
                     (followUpAt env now fu2Days rand.r2h rand.r2m)] }
            | _, _ => s4
          -- step 9: job completed
          updateJob s5 job.id (fun j =>
            { j with status := JobStatus.COMPLETED, completedAt := some now })

/-! ## job-processor.ts embedding -/

/-- Embeds `markContactBounced`: set the contact BOUNCED and cancel every
SCHEDULED / DRAFT_CREATED / APPROVED outreach of the contact. -/
def markContactBounced (s : Store) (contactId : Nat) : Store :=
  let s1 := updateContact s contactId (fun c =>
    { c with status := ContactStatus.BOUNCED })
  { s1 with outreaches := s1.outreaches.map (fun o =>
      if o.contactId = contactId ∧
          (o.status = OutreachStatus.SCHEDULED ∨
           o.status = OutreachStatus.DRAFT_CREATED ∨
           o.status = OutreachStatus.APPROVED) then
        { o with status := OutreachStatus.CANCELLED }
      else o) }

/-- The due-row predicate of `jobProcessFollowUps`: SCHEDULED, scheduled
at or before now, of a follow-up type. -/
def isDueFollowUp (now : Instant) (o : Outreach) : Bool :=
  o.status == OutreachStatus.SCHEDULED &&
  (match o.scheduledAt with
   | some t => decide (t ≤ now)
   | none => false) &&
  (o.otype == OutreachType.FOLLOWUP_1 || o.otype == OutreachType.FOLLOWUP_2 ||
   o.otype == OutreachType.MEETING_REQUEST)

/-- The batch selected by `jobProcessFollowUps` (`take: 10`). -/
def dueFollowUps (s : Store) (now : Instant) : List Outreach :=
  (s.outreaches.filter (isDueFollowUp now)).take 10

/-- Contact statuses that make `jobProcessFollowUps` cancel a due
follow-up instead of drafting it. -/
def stopFollowUpStatus (cs : ContactStatus) : Bool :=
  cs == ContactStatus.REPLIED || cs == ContactStatus.NOT_INTERESTED ||
  cs == ContactStatus.MEETING_SCHEDULED || cs == ContactStatus.CONVERTED

/-- Result of `generateEmail` (claude.ts), restricted to the fields the
follow-up pass writes back. -/
structure GeneratedEmail where
  subject : String
  bodyHtml : String
  bodyPlain : String
deriving DecidableEq, Repr

/-- The loop body of `jobProcessFollowUps` for one due outreach: cancel it
when the contact has engaged, otherwise draft it via the generative model
(`gen`; `Except.error` models the call throwing, which the per-row catch
swallows). -/
def processDueFollowUp (gen : Nat → Except String GeneratedEmail)
    (s : Store) (o : Outreach) : Store :=
  match findContact s o.contactId with
  | none => s
  | some c =>
    if stopFollowUpStatus c.status then
      updateOutreach s o.id (fun x => { x with status := OutreachStatus.CANCELLED })
    else
      match gen o.id with
      | Except.error _ => s
      | Except.ok g =>
        updateOutreach s o.id (fun x =>
          { x with
            subject := some g.subject
            bodyHtml := some g.bodyHtml
            bodyPlain := some g.bodyPlain
            status := OutreachStatus.DRAFT_CREATED })

/-- Embeds `jobProcessFollowUps`: process the due batch in order. -/
def jobProcessFollowUps (gen : Nat → Except String GeneratedEmail)
    (now : Instant) (s : Store) : Store :=
  (dueFollowUps s now).foldl (processDueFollowUp gen) s

/-! ## claude.ts warmup engine embedding -/

/-- Embeds `getSendTarget(dayNumber).min`. -/
def getSendTargetMin (dayNumber : Nat) : Nat :=
  if dayNumber ≤ 7 then 2
  else if dayNumber ≤ 14 then 5
  else if dayNumber ≤ 21 then 10
  else if dayNumber ≤ 28 then 15
  else 20

/-- Embeds `getSendTarget(dayNumber).max`. -/
def getSendTargetMax (dayNumber : Nat) : Nat :=
  if dayNumber ≤ 7 then 3
  else if dayNumber ≤ 14 then 8
  else if dayNumber ≤ 21 then 15
  else if dayNumber ≤ 28 then 20
  else 20

/-- Embeds `getDailySendLimit(dayNumber)`. -/
def getDailySendLimit (dayNumber : Nat) : Nat :=
  if dayNumber ≤ 7 then 3
  else if dayNumber ≤ 14 then 8
  else if dayNumber ≤ 21 then 15
  else 20

/-- Embeds `randomInt(min, max)` = `Math.floor(Math.random() * (max - min + 1)) + min`,
with the random draw supplied as `seed`. -/
def randomIntSeeded (seed lo hi : Nat) : Nat := lo + seed % (hi + 1 - lo)

/-- The health recomputation
`Math.max(0, Math.round(100 - bounceRate * 1000))` where
`bounceRate = totalSent > 0 ? totalBounced / totalSent : 0`;
`Math.round x` is `⌊x + 1/2⌋`, and `Int.toNat` performs the `max 0` clamp. -/
def healthScoreOf (totalSent totalBounced : Nat) : Nat :=
  if totalSent = 0 then 100
  else (((200 * totalSent : Int) - 2000 * totalBounced + totalSent).fdiv
    (2 * totalSent)).toNat

/-- The daily `warmupLog.upsert`: increment the same-day row when present,
otherwise append a fresh row. -/
def upsertWarmupLog (s : Store) (did : Nat) (date : Instant)
    (sent bounces hs : Nat) : Store :=
  if (s.warmupLogs.find? (fun l =>
      l.sendingDomainId == did && l.date == date)).isSome then
    { s with warmupLogs := s.warmupLogs.map (fun l =>
        if l.sendingDomainId = did ∧ l.date = date then
          { l with
            emailsSent := l.emailsSent + sent
            bounces := l.bounces + bounces
            healthScore := hs }
        else l) }
  else
    { s with warmupLogs := s.warmupLogs ++
        [{ sendingDomainId := did
           date := date
           emailsSent := sent
           bounces := bounces
           healthScore := hs }] }

/-- Per-domain randomness of a warmup cycle: the `randomInt(min, max)` draw
for the send count of the day and, per synthetic send, whether the SMTP call
throws (counted as a bounce).  Template and recipient selection only shape
the synthetic message bodies and are not observable in the store. -/
structure WarmupRand where
  countSeed : Nat
  fails : Nat → Bool

/-- The loop body of `runWarmupCycle` for one WARMING domain snapshot `d`
against the current store.  Returns the new store and the trace of
attempted synthetic sends (the sender domain id, one entry per send). -/
def warmupDomainStep (wrand : Nat → WarmupRand) (today : Instant)
    (s : Store) (d : SendingDomain) : Store × List Nat :=
  let currentDay := d.warmupDayNumber + 1
  if 28 < currentDay then
    -- day 29+: ramp complete
    (updateDomain s d.id (fun x =>
      { x with
        warmupStatus := WarmupStatus.READY
        dailySendLimit := 20
        warmupDayNumber := currentDay }), [])
  else
    let recipients := s.domains.filter (fun x =>
      x.workspaceId == d.workspaceId && x.id != d.id)
    if recipients.isEmpty then (s, [])
    else
      let r := wrand d.id
      let sendCount := randomIntSeeded r.countSeed
        (getSendTargetMin currentDay) (getSendTargetMax currentDay)
      match d.smtpHost, d.smtpUser, d.smtpPass with
      | some _, some _, some _ =>
        let sentCount :=
          ((List.range sendCount).filter (fun i => !(r.fails i))).length
        let bounceCount :=
          ((List.range sendCount).filter (fun i => r.fails i)).length
        let totalSent := d.totalSent + sentCount
        let totalBounced := d.totalBounced + bounceCount
        let hs := healthScoreOf totalSent totalBounced
        let s1 := updateDomain s d.id (fun x =>
          { x with
            warmupDayNumber := currentDay
            dailySendLimit := getDailySendLimit currentDay
            totalSent := totalSent
            totalBounced := totalBounced
            healthScore := hs })
        let s2 := upsertWarmupLog s1 d.id (startOfDay today)
          sentCount bounceCount hs
        (s2, (List.range sendCount).map (fun _ => d.id))
      | _, _, _ => (s, [])

/-- Embeds `runWarmupCycle`: iterate the per-domain step over the snapshot list of
WARMING domains, threading the store and concatenating send traces. -/
def runWarmupCycle (wrand : Nat → WarmupRand) (today : Instant)
    (s : Store) : Store × List Nat :=
  (s.domains.filter (fun d =>
    d.warmupStatus == WarmupStatus.WARMING)).foldl
    (fun acc d =>
      ((warmupDomainStep wrand today acc.1 d).1,
       acc.2 ++ (warmupDomainStep wrand today acc.1 d).2))
    (s, [])

/-- The (id, workspaceId) keys of the domain table; warmup-cycle updates
never change them. -/
def domKeys (s : Store) : List (Nat × Nat) :=
  s.domains.map (fun x => (x.id, x.workspaceId))

/-! ## Concrete fixtures (used to evaluate the theorems on closed inputs) -/

/-- Hour 10 of day 0: inside the default 8-18 sending window. -/
def cNow : Instant := 10 * msPerHour

def cContact : Contact :=
  { id := 5
    email := "maria@example.org"
    status := ContactStatus.NEW
    outlookConversationId := none
    lastContactedAt := none }

def cCampaign : Campaign :=
  { id := 3
    workspaceId := 2
    followUp1Days := none
    followUp2Days := none }

def cOutreach : Outreach :=
  { id := 10
    contactId := 5
    campaignId := some 3
    userId := 7
    sendingDomainId := none
    otype := OutreachType.INITIAL
    status := OutreachStatus.APPROVED
    subject := some "hello"
    bodyHtml := some "<p>hi</p>"
    bodyPlain := some "hi"
    scheduledAt := none
    sentAt := none
    parentOutreachId := none
    internetMessageId := none }

def cDomain : SendingDomain :=
  { id := 4
    workspaceId := 2
    emailAddress := "out@send.example"
    smtpHost := some "smtp.example"
    smtpPort := some 587
    smtpUser := some "u"
    smtpPass := some "p"
    warmupStatus := WarmupStatus.READY
    warmupDayNumber := 30
    dailySendLimit := 20
    healthScore := 100
    totalSent := 0
    totalBounced := 0 }

def cJob : Job :=
  { id := 1
    outreachId := 10
    priority := 0
    status := JobStatus.PROCESSING
    attempts := 0
    maxAttempts := 3
    runAfter := 0
    lastError := none
    startedAt := some cNow
    completedAt := none }

def cRand : FollowUpRand := ⟨0, 0, 1, 30⟩

/-- Hour 19 of day 0: past the default window end. -/
def cNight : Instant := 19 * msPerHour

def cJobA2 : Job := { cJob with attempts := 2 }

def cOutreachAssigned : Outreach := { cOutreach with sendingDomainId := some 4 }

def cOutreachSentToday : Outreach :=
  { cOutreach with
    id := 11
    status := OutreachStatus.SENT
    sentAt := some cNow
    sendingDomainId := some 4 }

def cDomainLim1 : SendingDomain := { cDomain with dailySendLimit := 1 }

def cStoreAssigned : Store :=
  ⟨[cJob], [cOutreachAssigned], [cContact], [cCampaign], [cDomain], []⟩

def cStoreAssignedA2 : Store :=
  ⟨[cJobA2], [cOutreachAssigned], [cContact], [cCampaign], [cDomain], []⟩

def cStoreAtCapacity : Store :=
  ⟨[cJob], [cOutreachAssigned, cOutreachSentToday], [cContact], [cCampaign],
   [cDomainLim1], []⟩

def cStoreNoOutreach : Store := ⟨[cJob], [], [cContact], [cCampaign], [], []⟩

def cStoreNoDomains : Store :=
  ⟨[cJob], [cOutreach], [cContact], [cCampaign], [], []⟩

def cFollowUp : Outreach :=
  { cOutreach with
    id := 20
    otype := OutreachType.FOLLOWUP_1
    status := OutreachStatus.SCHEDULED
    scheduledAt := some cNow
    parentOutreachId := some 10 }

def cContactReplied : Contact := { cContact with status := ContactStatus.REPLIED }

def cStoreDue : Store :=
  ⟨[], [cFollowUp], [cContactReplied], [cCampaign], [], []⟩

def cDomainWarm : SendingDomain :=
  { cDomain with
    warmupStatus := WarmupStatus.WARMING
    warmupDayNumber := 3
    dailySendLimit := 3 }

def cStoreWarm : Store := ⟨[], [], [], [], [cDomainWarm], []⟩

/-! ## Generic store lemmas -/

theorem find?_updListBy_self {α : Type} (key : α → Nat) (i : Nat) (f : α → α)
    (l : List α) (hf : ∀ x, key (f x) = key x) :
    (updListBy key i f l).find? (fun x => key x == i) =
      (l.find? (fun x => key x == i)).map f := by
  induction l with
  | nil => rfl
  | cons a l ih =>
    by_cases h : key a = i
    · simp [updListBy, List.find?_cons, h, hf]
    · simpa [updListBy, List.find?_cons, h, hf] using ih

theorem find?_updListBy_other {α : Type} (key : α → Nat) (i k : Nat)
    (f : α → α) (l : List α) (hf : ∀ x, key (f x) = key x) (hik : k ≠ i) :
    (updListBy key i f l).find? (fun x => key x == k) =
      l.find? (fun x => key x == k) := by
  induction l with
  | nil => rfl
  | cons a l ih =>
    show ((if key a == i then f a else a) :: updListBy key i f l).find?
      (fun x => key x == k) = _
    by_cases h : key a = i
    · have e1 : (key (f a) == k) = false := by
        rw [hf, h, beq_eq_false_iff_ne]
        exact fun hk => hik hk.symm
      have e2 : (key a == k) = false := by
        rw [h, beq_eq_false_iff_ne]
        exact fun hk => hik hk.symm
      rw [if_pos (by simp [h])]
      simp only [List.find?, e1, e2]
      exact ih
    · by_cases h2 : key a = k
      · have e2 : (key a == k) = true := by rw [h2]; exact beq_self_eq_true k
        rw [if_neg (by simp [h])]
        simp only [List.find?, e2]
      · have e2 : (key a == k) = false := beq_eq_false_iff_ne.mpr h2
        rw [if_neg (by simp [h])]
        simp only [List.find?, e2]
        exact ih

theorem map_updListBy {α β : Type} (g : α → β) (key : α → Nat) (i : Nat)
    (f : α → α) (l : List α) (hgf : ∀ x, g (f x) = g x) :
    (updListBy key i f l).map g = l.map g := by
  induction l with
  | nil => rfl
  | cons a l ih =>
    by_cases h : key a = i <;>
      simpa [updListBy, h, hgf] using ih

theorem find?_key_of_mem_nodup {α : Type} (key : α → Nat) (l : List α)
    (a : α) (ha : a ∈ l) (hnd : (l.map key).Nodup) :
    l.find? (fun x => key x == key a) = some a := by
  induction l with
  | nil => cases ha
  | cons b l ih =>
    have hnd2 : (l.map key).Nodup := (List.nodup_cons.mp hnd).2
    rcases List.mem_cons.mp ha with hba | ha2
    · subst hba; simp [List.find?_cons]
    · by_cases hb : key b = key a
      · exfalso
        exact (List.nodup_cons.mp hnd).1
          (hb ▸ List.mem_map_of_mem key ha2)
      · simpa [List.find?_cons, hb] using ih ha2 hnd2

theorem findJob_updateJob_self (s : Store) (i : Nat) (f : Job → Job)
    (hf : ∀ j, (f j).id = j.id) :
    findJob (updateJob s i f) i = (findJob s i).map f := by
  simp only [findJob, updateJob]
  exact find?_updListBy_self Job.id i f s.jobs hf

theorem findOutreach_updateOutreach_self (s : Store) (i : Nat)
    (f : Outreach → Outreach) (hf : ∀ o, (f o).id = o.id) :
    findOutreach (updateOutreach s i f) i = (findOutreach s i).map f := by
  simp only [findOutreach, updateOutreach]
  exact find?_updListBy_self Outreach.id i f s.outreaches hf

theorem findOutreach_updateOutreach_other (s : Store) (i k : Nat)
    (f : Outreach → Outreach) (hf : ∀ o, (f o).id = o.id) (hik : k ≠ i) :
    findOutreach (updateOutreach s i f) k = findOutreach s k := by
  simp only [findOutreach, updateOutreach]
  exact find?_updListBy_other Outreach.id i k f s.outreaches hf hik

theorem findContact_updateContact_self (s : Store) (i : Nat)
    (f : Contact → Contact) (hf : ∀ c, (f c).id = c.id) :
    findContact (updateContact s i f) i = (findContact s i).map f := by
  simp only [findContact, updateContact]
  exact find?_updListBy_self Contact.id i f s.contacts hf

theorem findDomain_updateDomain_self (s : Store) (i : Nat)
    (f : SendingDomain → SendingDomain) (hf : ∀ d, (f d).id = d.id) :
    findDomain (updateDomain s i f) i = (findDomain s i).map f := by
  simp only [findDomain, updateDomain]
  exact find?_updListBy_self SendingDomain.id i f s.domains hf

theorem findDomain_updateDomain_other (s : Store) (i k : Nat)
    (f : SendingDomain → SendingDomain) (hf : ∀ d, (f d).id = d.id)
    (hik : k ≠ i) :
    findDomain (updateDomain s i f) k = findDomain s k := by
  simp only [findDomain, updateDomain]
  exact find?_updListBy_other SendingDomain.id i k f s.domains hf hik

/-! ## Claim theorems -/

/-- C7: after the bounce cascade `markContactBounced` completes, the
contact status is BOUNCED and zero outreach rows of that contact remain
SCHEDULED, DRAFT_CREATED or APPROVED (each such row was set CANCELLED). -/
theorem bounceCascade_clears_pending (s : Store) (cid : Nat) (c : Contact)
    (hc : findContact s cid = some c) :
    (findContact (markContactBounced s cid) cid).map Contact.status =
      some ContactStatus.BOUNCED ∧
    ∀ o ∈ (markContactBounced s cid).outreaches, o.contactId = cid →
      o.status ≠ OutreachStatus.SCHEDULED ∧
      o.status ≠ OutreachStatus.DRAFT_CREATED ∧
      o.status ≠ OutreachStatus.APPROVED := by
  constructor
  · have h1 : findContact (markContactBounced s cid) cid =
        findContact (updateContact s cid (fun c =>
          { c with status := ContactStatus.BOUNCED })) cid := rfl
    rw [h1, findContact_updateContact_self s cid (fun c =>
      { c with status := ContactStatus.BOUNCED }) (fun c => rfl), hc]
    rfl
  · intro o ho hoc
    have h2 : (markContactBounced s cid).outreaches =
        s.outreaches.map (fun x =>
          if x.contactId = cid ∧
              (x.status = OutreachStatus.SCHEDULED ∨
               x.status = OutreachStatus.DRAFT_CREATED ∨
               x.status = OutreachStatus.APPROVED) then
            { x with status := OutreachStatus.CANCELLED }
          else x) := rfl
    rw [h2] at ho
    obtain ⟨x, hx, rfl⟩ := List.mem_map.mp ho
    by_cases hcond : x.contactId = cid ∧
        (x.status = OutreachStatus.SCHEDULED ∨
         x.status = OutreachStatus.DRAFT_CREATED ∨
         x.status = OutreachStatus.APPROVED)
    · simp only [if_pos hcond]
      refine ⟨?_, ?_, ?_⟩ <;> simp
    · simp only [if_neg hcond] at hoc ⊢
      have hns : ¬(x.status = OutreachStatus.SCHEDULED ∨
          x.status = OutreachStatus.DRAFT_CREATED ∨
          x.status = OutreachStatus.APPROVED) :=
        fun hs => hcond ⟨hoc, hs⟩
      push_neg at hns
      exact hns

/-- Witness for C7: the cascade evaluated on a contact with one SCHEDULED
outreach. -/
theorem bounceCascade_clears_pending_witness :
    (findContact (markContactBounced
        ⟨[], [{ cOutreach with status := OutreachStatus.SCHEDULED }],
         [cContact], [cCampaign], [], []⟩ 5) 5).map Contact.status =
      some ContactStatus.BOUNCED ∧
    ∀ o ∈ (markContactBounced
        ⟨[], [{ cOutreach with status := OutreachStatus.SCHEDULED }],
         [cContact], [cCampaign], [], []⟩ 5).outreaches, o.contactId = 5 →
      o.status ≠ OutreachStatus.SCHEDULED ∧
      o.status ≠ OutreachStatus.DRAFT_CREATED ∧
      o.status ≠ OutreachStatus.APPROVED :=
  bounceCascade_clears_pending _ 5 cContact (by rfl)

theorem upsertWarmupLog_domains (s : Store) (did : Nat) (date : Instant)
    (sent bounces hs : Nat) :
    (upsertWarmupLog s did date sent bounces hs).domains = s.domains := by
  unfold upsertWarmupLog
  split <;> rfl

theorem warmupDomainStep_ready (wrand : Nat → WarmupRand) (today : Instant)
    (s : Store) (d : SendingDomain) (hd : findDomain s d.id = some d)
    (hday : 28 < d.warmupDayNumber + 1) :
    findDomain (warmupDomainStep wrand today s d).1 d.id = some
      { d with
        warmupStatus := WarmupStatus.READY
        dailySendLimit := 20
        warmupDayNumber := d.warmupDayNumber + 1 } := by
  simp only [findDomain] at hd
  simp only [warmupDomainStep]
  rw [if_pos hday]
  simp only [findDomain, updateDomain]
  rw [find?_updListBy_self SendingDomain.id d.id]
  · rw [hd]
    rfl
  · intro x
    rfl

theorem warmupDomainStep_status_stays (wrand : Nat → WarmupRand)
    (today : Instant) (s : Store) (d : SendingDomain)
    (hd : findDomain s d.id = some d)
    (hday : ¬ 28 < d.warmupDayNumber + 1) :
    (findDomain (warmupDomainStep wrand today s d).1 d.id).map
      SendingDomain.warmupStatus = some d.warmupStatus := by
  simp only [findDomain] at hd
  simp only [warmupDomainStep]
  rw [if_neg hday]
  split
  · simp only [findDomain]
    rw [hd]
    rfl
  · split
    · simp only [findDomain, upsertWarmupLog_domains, updateDomain]
      rw [find?_updListBy_self SendingDomain.id d.id]
      · rw [hd]
        rfl
      · intro x
        rfl
    · simp only [findDomain]
      rw [hd]
      rfl

/-- C8: the warmup daily send limit is monotone in the day number (so in
particular day 10 is at least day 5, which is at least day 1), and the
warmup cycle moves a WARMING identity to READY with its daily limit fixed
at 20 exactly when the cycle day number `warmupDayNumber + 1` exceeds 28,
never earlier. -/
theorem warmupRamp_monotone_ready (wrand : Nat → WarmupRand)
    (today : Instant) (s : Store) (d : SendingDomain)
    (hd : findDomain s d.id = some d)
    (hw : d.warmupStatus = WarmupStatus.WARMING) :
    (∀ d1 d2 : Nat, d1 ≤ d2 → getDailySendLimit d1 ≤ getDailySendLimit d2) ∧
    ((findDomain (warmupDomainStep wrand today s d).1 d.id).map
        SendingDomain.warmupStatus = some WarmupStatus.READY ↔
      28 < d.warmupDayNumber + 1) ∧
    (28 < d.warmupDayNumber + 1 →
      findDomain (warmupDomainStep wrand today s d).1 d.id = some
        { d with
          warmupStatus := WarmupStatus.READY
          dailySendLimit := 20
          warmupDayNumber := d.warmupDayNumber + 1 }) := by
  refine ⟨?_, ?_, fun hday => warmupDomainStep_ready wrand today s d hd hday⟩
  · intro d1 d2 h
    unfold getDailySendLimit
    split_ifs <;> omega
  · by_cases hday : 28 < d.warmupDayNumber + 1
    · rw [warmupDomainStep_ready wrand today s d hd hday]
      simp [hday]
    · rw [warmupDomainStep_status_stays wrand today s d hd hday, hw]
      simp [hday]

/-- Witness for C8: a WARMING identity on ramp day 29 in a one-domain store. -/
theorem warmupRamp_monotone_ready_witness :
    (∀ d1 d2 : Nat, d1 ≤ d2 → getDailySendLimit d1 ≤ getDailySendLimit d2) ∧
    ((findDomain (warmupDomainStep (fun _ => ⟨0, fun _ => false⟩) 0
        ⟨[], [], [], [], [{ cDomain with
          warmupStatus := WarmupStatus.WARMING
          warmupDayNumber := 28 }], []⟩
        { cDomain with
          warmupStatus := WarmupStatus.WARMING
          warmupDayNumber := 28 }).1 4).map SendingDomain.warmupStatus =
        some WarmupStatus.READY ↔ 28 < 28 + 1) ∧
    (28 < 28 + 1 →
      findDomain (warmupDomainStep (fun _ => ⟨0, fun _ => false⟩) 0
        ⟨[], [], [], [], [{ cDomain with
          warmupStatus := WarmupStatus.WARMING
          warmupDayNumber := 28 }], []⟩
        { cDomain with
          warmupStatus := WarmupStatus.WARMING
          warmupDayNumber := 28 }).1 4 = some
        { { cDomain with
            warmupStatus := WarmupStatus.WARMING
            warmupDayNumber := 28 } with
          warmupStatus := WarmupStatus.READY
          dailySendLimit := 20
          warmupDayNumber := 28 + 1 }) :=
  warmupRamp_monotone_ready (fun _ => ⟨0, fun _ => false⟩) 0 _ _ (by rfl) (by rfl)

/-- C4: a claimed send job whose assigned identity already has at least its
daily limit of SENT outreach today is returned to PENDING with not-before
tomorrow at the window-start hour, with the attempt count untouched and no
dispatch (the outreach and contact tables are unchanged). -/
theorem capacityDeferral_reschedules_tomorrow (env : SendEnv) (now : Instant)
    (smtpResult : Except String String)
    (outlookResult : Except String (String × String)) (rand : FollowUpRand)
    (s : Store) (job : Job) (o : Outreach) (c : Contact)
    (cam : Option Campaign) (did : Nat) (d : SendingDomain)
    (hload : loadOutreachFull s job.outreachId = some (o, c, cam))
    (hdom : o.sendingDomainId = some did)
    (hd : findDomain s did = some d)
    (hcap : d.dailySendLimit ≤ getDailyDomainSendCount s now did)
    (hjob : findJob s job.id = some job) :
    (processClaimedEmailJob env now smtpResult outlookResult rand s job).outreaches
      = s.outreaches ∧
    (processClaimedEmailJob env now smtpResult outlookResult rand s job).contacts
      = s.contacts ∧
    findJob (processClaimedEmailJob env now smtpResult outlookResult rand s job)
        job.id = some
      { job with
        status := JobStatus.PENDING
        runAfter := nextDayAtHour now env.windowStart
        startedAt := none } := by
  have hred : processClaimedEmailJob env now smtpResult outlookResult rand s job
      = updateJob s job.id (fun j =>
          { j with
            status := JobStatus.PENDING
            runAfter := nextDayAtHour now env.windowStart
            startedAt := none }) := by
    simp only [processClaimedEmailJob, hload, hdom, hd, Option.some_bind,
      decide_eq_true hcap, if_true]
  refine ⟨by rw [hred]; rfl, by rw [hred]; rfl, ?_⟩
  rw [hred, findJob_updateJob_self s job.id (fun j =>
    { j with
      status := JobStatus.PENDING
      runAfter := nextDayAtHour now env.windowStart
      startedAt := none }) (fun j => rfl), hjob]
  rfl

theorem loadOutreachFull_parts (s : Store) (oid : Nat) (o : Outreach)
    (c : Contact) (cam : Option Campaign)
    (h : loadOutreachFull s oid = some (o, c, cam)) :
    findOutreach s oid = some o ∧ o.id = oid ∧
    findContact s o.contactId = some c := by
  unfold loadOutreachFull at h
  cases ho : findOutreach s oid with
  | none => rw [ho] at h; cases h
  | some o2 =>
    rw [ho] at h
    simp only [] at h
    have hid : o2.id = oid := by
      have := List.find?_some ho
      simpa [beq_iff_eq] using this
    cases hc : findContact s o2.contactId with
    | none =>
      rw [hc] at h
      simp only [] at h
      cases h
    | some c2 =>
      rw [hc] at h
      simp only [] at h
      cases hcid : o2.campaignId with
      | none =>
        rw [hcid] at h
        simp only [] at h
        obtain ⟨rfl, rfl, rfl⟩ : o2 = o ∧ c2 = c ∧ (none : Option Campaign) = cam := by
          cases h; exact ⟨rfl, rfl, rfl⟩
        exact ⟨rfl, hid, hc⟩
      | some cid =>
        rw [hcid] at h
        simp only [] at h
        cases hcm : findCampaign s cid with
        | none =>
          rw [hcm] at h
          simp only [Option.map] at h
          cases h
        | some cm =>
          rw [hcm] at h
          simp only [Option.map] at h
          obtain ⟨rfl, rfl, rfl⟩ : o2 = o ∧ c2 = c ∧ (some cm : Option Campaign) = cam := by
            cases h; exact ⟨rfl, rfl, rfl⟩
          exact ⟨rfl, hid, hc⟩

theorem handleSendFailure_spec (s : Store) (job : Job) (oid : Nat)
    (now : Instant) (e : String) (hjob : findJob s job.id = some job) :
    (job.maxAttempts ≤ job.attempts + 1 →
      findJob (handleSendFailure s job oid now e) job.id = some
        { job with
          status := JobStatus.DEAD
          attempts := job.attempts + 1
          lastError := some e }) ∧
    (job.attempts + 1 < job.maxAttempts →
      findJob (handleSendFailure s job oid now e) job.id = some
        { job with
          status := JobStatus.PENDING
          attempts := job.attempts + 1
          lastError := some e
          runAfter := now + backoffMs job.attempts
          startedAt := none }) ∧
    (job.maxAttempts ≤ job.attempts + 1 →
      findOutreach (handleSendFailure s job oid now e) oid =
        (findOutreach s oid).map (fun o =>
          { o with status := OutreachStatus.FAILED })) ∧
    (job.attempts + 1 < job.maxAttempts →
      (handleSendFailure s job oid now e).outreaches = s.outreaches) := by
  simp only [findJob] at hjob
  refine ⟨?_, ?_, ?_, ?_⟩
  · intro hmax
    simp only [handleSendFailure]
    rw [if_pos hmax]
    simp only [findJob, updateOutreach, updateJob]
    rw [find?_updListBy_self Job.id job.id]
    · rw [hjob]
      rfl
    · intro x
      rfl
  · intro hlt
    simp only [handleSendFailure]
    rw [if_neg (Nat.not_le.mpr hlt)]
    simp only [findJob, updateJob]
    rw [find?_updListBy_self Job.id job.id]
    · rw [hjob]
      rfl
    · intro x
      rfl
  · intro hmax
    simp only [handleSendFailure]
    rw [if_pos hmax]
    simp only [findOutreach, updateOutreach, updateJob]
    rw [find?_updListBy_self Outreach.id oid]
    intro x
    rfl
  · intro hlt
    simp only [handleSendFailure]
    rw [if_neg (Nat.not_le.mpr hlt)]
    rfl

/-- C3: when dispatch of a claimed job throws, the failure handler
increments attempts; at `maxAttempts` the job becomes DEAD and the
outreach FAILED with nothing else on the job touched (no reschedule);
below it the job returns to PENDING at now + 30s·4^attempts with the
error recorded, the backoff values for attempts 0, 1, 2 being 30s, 120s
and 480s. -/
theorem dispatchFailure_backoff_or_dead (env : SendEnv) (now : Instant)
    (outlookResult : Except String (String × String)) (rand : FollowUpRand)
    (s : Store) (job : Job) (o : Outreach) (c : Contact)
    (cam : Option Campaign) (did : Nat) (d : SendingDomain) (e : String)
    (hload : loadOutreachFull s job.outreachId = some (o, c, cam))
    (hdom : o.sendingDomainId = some did)
    (hd : findDomain s did = some d)
    (hcap : getDailyDomainSendCount s now did < d.dailySendLimit)
    (hwin : ¬(hourOf now < env.windowStart ∨ env.windowEnd ≤ hourOf now))
    (hsm : (d.smtpHost.isSome && d.smtpUser.isSome && d.smtpPass.isSome) = true)
    (hjob : findJob s job.id = some job) :
    (backoffMs 0 = 30000 ∧ backoffMs 1 = 120000 ∧ backoffMs 2 = 480000) ∧
    (job.maxAttempts ≤ job.attempts + 1 →
      findJob (processClaimedEmailJob env now (Except.error e) outlookResult
          rand s job) job.id = some
        { job with
          status := JobStatus.DEAD
          attempts := job.attempts + 1
          lastError := some e } ∧
      findOutreach (processClaimedEmailJob env now (Except.error e)
          outlookResult rand s job) o.id = some
        { o with status := OutreachStatus.FAILED }) ∧
    (job.attempts + 1 < job.maxAttempts →
      findJob (processClaimedEmailJob env now (Except.error e) outlookResult
          rand s job) job.id = some
        { job with
          status := JobStatus.PENDING
          attempts := job.attempts + 1
          lastError := some e
          runAfter := now + backoffMs job.attempts
          startedAt := none } ∧
      (processClaimedEmailJob env now (Except.error e) outlookResult rand s
          job).outreaches = s.outreaches) := by
  obtain ⟨ho, hoid, hc⟩ := loadOutreachFull_parts s job.outreachId o c cam hload
  have hred : processClaimedEmailJob env now (Except.error e) outlookResult
      rand s job = handleSendFailure s job o.id now e := by
    simp only [processClaimedEmailJob, hload, hdom, hd, Option.some_bind,
      decide_eq_false (Nat.not_le.mpr hcap), Bool.false_eq_true, if_false,
      if_neg hwin, hsm, if_true]
  obtain ⟨h1, h2, h3, h4⟩ := handleSendFailure_spec s job o.id now e hjob
  have hoo : findOutreach s o.id = some o := hoid ▸ ho
  refine ⟨⟨rfl, rfl, rfl⟩, ?_, ?_⟩
  · intro hmax
    refine ⟨hred ▸ h1 hmax, ?_⟩
    rw [hred, h3 hmax, hoo]
    rfl
  · intro hlt
    exact ⟨hred ▸ h2 hlt, hred ▸ h4 hlt⟩

/-- Witness for C4: a domain with limit 1 and one SENT outreach today. -/
theorem capacityDeferral_reschedules_tomorrow_witness :
    (processClaimedEmailJob defaultSendEnv cNow (Except.ok "mid")
        (Except.ok ("cv", "im")) cRand cStoreAtCapacity cJob).outreaches
      = cStoreAtCapacity.outreaches ∧
    (processClaimedEmailJob defaultSendEnv cNow (Except.ok "mid")
        (Except.ok ("cv", "im")) cRand cStoreAtCapacity cJob).contacts
      = cStoreAtCapacity.contacts ∧
    findJob (processClaimedEmailJob defaultSendEnv cNow (Except.ok "mid")
        (Except.ok ("cv", "im")) cRand cStoreAtCapacity cJob) cJob.id = some
      { cJob with
        status := JobStatus.PENDING
        runAfter := nextDayAtHour cNow defaultSendEnv.windowStart
        startedAt := none } :=
  capacityDeferral_reschedules_tomorrow defaultSendEnv cNow (Except.ok "mid")
    (Except.ok ("cv", "im")) cRand cStoreAtCapacity cJob cOutreachAssigned
    cContact (some cCampaign) 4 cDomainLim1 (by rfl) (by rfl) (by rfl)
    (by decide) (by rfl)

/-- Witness for C3: a job with attempts 2 of 3 whose SMTP dispatch throws. -/
theorem dispatchFailure_backoff_or_dead_witness :
    (backoffMs 0 = 30000 ∧ backoffMs 1 = 120000 ∧ backoffMs 2 = 480000) ∧
    (cJobA2.maxAttempts ≤ cJobA2.attempts + 1 →
      findJob (processClaimedEmailJob defaultSendEnv cNow (Except.error "boom")
          (Except.ok ("cv", "im")) cRand cStoreAssignedA2 cJobA2) cJobA2.id
        = some
        { cJobA2 with
          status := JobStatus.DEAD
          attempts := cJobA2.attempts + 1
          lastError := some "boom" } ∧
      findOutreach (processClaimedEmailJob defaultSendEnv cNow
          (Except.error "boom") (Except.ok ("cv", "im")) cRand
          cStoreAssignedA2 cJobA2) cOutreachAssigned.id = some
        { cOutreachAssigned with status := OutreachStatus.FAILED }) ∧
    (cJobA2.attempts + 1 < cJobA2.maxAttempts →
      findJob (processClaimedEmailJob defaultSendEnv cNow (Except.error "boom")
          (Except.ok ("cv", "im")) cRand cStoreAssignedA2 cJobA2) cJobA2.id
        = some
        { cJobA2 with
          status := JobStatus.PENDING
          attempts := cJobA2.attempts + 1
          lastError := some "boom"
          runAfter := cNow + backoffMs cJobA2.attempts
          startedAt := none } ∧
      (processClaimedEmailJob defaultSendEnv cNow (Except.error "boom")
          (Except.ok ("cv", "im")) cRand cStoreAssignedA2 cJobA2).outreaches
        = cStoreAssignedA2.outreaches) :=
  dispatchFailure_backoff_or_dead defaultSendEnv cNow (Except.ok ("cv", "im"))
    cRand cStoreAssignedA2 cJobA2 cOutreachAssigned cContact (some cCampaign)
    4 cDomain "boom" (by rfl) (by rfl) (by rfl) (by decide) (by decide)
    (by rfl) (by rfl)

/-- Counterexample to C1 as stated: with the referenced outreach missing
from the store, the claimed job (attempts 0 of 3) is NOT failed
permanently — it returns to PENDING with a 30s backoff and an incremented
attempt count, i.e. it is rescheduled for a later attempt. -/
theorem missingOutreach_retried_counterexample :
    (findJob (processClaimedEmailJob defaultSendEnv cNow (Except.error "x")
        (Except.error "x") cRand cStoreNoOutreach cJob) 1).map Job.status =
      some JobStatus.PENDING ∧
    (findJob (processClaimedEmailJob defaultSendEnv cNow (Except.error "x")
        (Except.error "x") cRand cStoreNoOutreach cJob) 1).map Job.runAfter =
      some (cNow + 30000) ∧
    (findJob (processClaimedEmailJob defaultSendEnv cNow (Except.error "x")
        (Except.error "x") cRand cStoreNoOutreach cJob) 1).map Job.attempts =
      some 1 :=
  ⟨rfl, rfl, rfl⟩

/-- C1 amended: a claimed job whose referenced outreach cannot be loaded is
routed through the generic retry handler like any dispatch failure: the
attempt count is incremented and the job returns to PENDING with
exponential backoff; only once the incremented count reaches maxAttempts
is it marked DEAD. -/
theorem missingOutreach_generic_retry (env : SendEnv) (now : Instant)
    (smtpResult : Except String String)
    (outlookResult : Except String (String × String)) (rand : FollowUpRand)
    (s : Store) (job : Job)
    (hload : loadOutreachFull s job.outreachId = none)
    (hjob : findJob s job.id = some job) :
    (job.attempts + 1 < job.maxAttempts →
      findJob (processClaimedEmailJob env now smtpResult outlookResult rand
          s job) job.id = some
        { job with
          status := JobStatus.PENDING
          attempts := job.attempts + 1
          lastError := some "No Outreach found"
          runAfter := now + backoffMs job.attempts
          startedAt := none }) ∧
    (job.maxAttempts ≤ job.attempts + 1 →
      findJob (processClaimedEmailJob env now smtpResult outlookResult rand
          s job) job.id = some
        { job with
          status := JobStatus.DEAD
          attempts := job.attempts + 1
          lastError := some "No Outreach found" }) := by
  have hred : processClaimedEmailJob env now smtpResult outlookResult rand s
      job = handleSendFailure s job job.outreachId now "No Outreach found" := by
    simp only [processClaimedEmailJob, hload]
  obtain ⟨h1, h2, h3, h4⟩ :=
    handleSendFailure_spec s job job.outreachId now "No Outreach found" hjob
  exact ⟨fun hlt => hred ▸ h2 hlt, fun hmax => hred ▸ h1 hmax⟩

/-- Witness for the amended C1 at a store with no outreach rows. -/
theorem missingOutreach_generic_retry_witness :
    (cJob.attempts + 1 < cJob.maxAttempts →
      findJob (processClaimedEmailJob defaultSendEnv cNow (Except.error "x")
          (Except.error "x") cRand cStoreNoOutreach cJob) cJob.id = some
        { cJob with
          status := JobStatus.PENDING
          attempts := cJob.attempts + 1
          lastError := some "No Outreach found"
          runAfter := cNow + backoffMs cJob.attempts
          startedAt := none }) ∧
    (cJob.maxAttempts ≤ cJob.attempts + 1 →
      findJob (processClaimedEmailJob defaultSendEnv cNow (Except.error "x")
          (Except.error "x") cRand cStoreNoOutreach cJob) cJob.id = some
        { cJob with
          status := JobStatus.DEAD
          attempts := cJob.attempts + 1
          lastError := some "No Outreach found" }) :=
  missingOutreach_generic_retry defaultSendEnv cNow (Except.error "x")
    (Except.error "x") cRand cStoreNoOutreach cJob (by rfl) (by rfl)

/-- C5: a claimed send job processed outside [windowStart, windowEnd)
whose loaded outreach has an assigned identity with remaining capacity is
not dispatched (outreach and contact tables unchanged) and returns to
PENDING at the next window opening: today at windowStart before the
window, tomorrow at windowStart at or after windowEnd; attempts are
untouched. -/
theorem windowDeferral_reschedules_nextOpen (env : SendEnv) (now : Instant)
    (smtpResult : Except String String)
    (outlookResult : Except String (String × String)) (rand : FollowUpRand)
    (s : Store) (job : Job) (o : Outreach) (c : Contact)
    (cam : Option Campaign) (did : Nat) (d : SendingDomain)
    (hload : loadOutreachFull s job.outreachId = some (o, c, cam))
    (hdom : o.sendingDomainId = some did)
    (hd : findDomain s did = some d)
    (hcap : getDailyDomainSendCount s now did < d.dailySendLimit)
    (hout : hourOf now < env.windowStart ∨ env.windowEnd ≤ hourOf now)
    (hjob : findJob s job.id = some job) :
    (processClaimedEmailJob env now smtpResult outlookResult rand s job).outreaches
      = s.outreaches ∧
    (processClaimedEmailJob env now smtpResult outlookResult rand s job).contacts
      = s.contacts ∧
    findJob (processClaimedEmailJob env now smtpResult outlookResult rand s
        job) job.id = some
      { job with
        status := JobStatus.PENDING
        runAfter := if env.windowEnd ≤ hourOf now then
            nextDayAtHour now env.windowStart
          else atHour now env.windowStart
        startedAt := none } := by
  have hred : processClaimedEmailJob env now smtpResult outlookResult rand s
      job = updateJob s job.id (fun j =>
        { j with
          status := JobStatus.PENDING
          runAfter := if env.windowEnd ≤ hourOf now then
              nextDayAtHour now env.windowStart
            else atHour now env.windowStart
          startedAt := none }) := by
    simp only [processClaimedEmailJob, hload, hdom, hd, Option.some_bind,
      decide_eq_false (Nat.not_le.mpr hcap), Bool.false_eq_true, if_false,
      if_pos hout]
  refine ⟨by rw [hred]; rfl, by rw [hred]; rfl, ?_⟩
  rw [hred]
  simp only [findJob, updateJob]
  rw [find?_updListBy_self Job.id job.id]
  · simp only [findJob] at hjob
    rw [hjob]
    rfl
  · intro x
    rfl

/-- Witness for C5: the assigned-identity store processed at hour 19. -/
theorem windowDeferral_reschedules_nextOpen_witness :
    (processClaimedEmailJob defaultSendEnv cNight (Except.ok "mid")
        (Except.ok ("cv", "im")) cRand cStoreAssigned cJob).outreaches
      = cStoreAssigned.outreaches ∧
    (processClaimedEmailJob defaultSendEnv cNight (Except.ok "mid")
        (Except.ok ("cv", "im")) cRand cStoreAssigned cJob).contacts
      = cStoreAssigned.contacts ∧
    findJob (processClaimedEmailJob defaultSendEnv cNight (Except.ok "mid")
        (Except.ok ("cv", "im")) cRand cStoreAssigned cJob) cJob.id = some
      { cJob with
        status := JobStatus.PENDING
        runAfter := if defaultSendEnv.windowEnd ≤ hourOf cNight then
            nextDayAtHour cNight defaultSendEnv.windowStart
          else atHour cNight defaultSendEnv.windowStart
        startedAt := none } :=
  windowDeferral_reschedules_nextOpen defaultSendEnv cNight (Except.ok "mid")
    (Except.ok ("cv", "im")) cRand cStoreAssigned cJob cOutreachAssigned
    cContact (some cCampaign) 4 cDomain (by rfl) (by rfl) (by rfl)
    (by decide) (by decide) (by rfl)

theorem findOutreach_updateJob (s : Store) (i : Nat) (f : Job → Job)
    (k : Nat) : findOutreach (updateJob s i f) k = findOutreach s k := rfl

theorem findOutreach_updateContact (s : Store) (i : Nat)
    (f : Contact → Contact) (k : Nat) :
    findOutreach (updateContact s i f) k = findOutreach s k := rfl

theorem findJob_updateOutreach (s : Store) (i : Nat)
    (f : Outreach → Outreach) (k : Nat) :
    findJob (updateOutreach s i f) k = findJob s k := rfl

theorem findJob_updateContact (s : Store) (i : Nat) (f : Contact → Contact)
    (k : Nat) : findJob (updateContact s i f) k = findJob s k := rfl

theorem mem_insertByHealth (d x : SendingDomain) (l : List SendingDomain) :
    x ∈ insertByHealth d l ↔ x = d ∨ x ∈ l := by
  induction l with
  | nil => simp [insertByHealth]
  | cons e rest ih =>
    by_cases h : e.healthScore ≤ d.healthScore
    · simp [insertByHealth, h]
    · simp only [insertByHealth, if_neg h, List.mem_cons, ih]
      tauto

theorem mem_sortByHealthDesc (x : SendingDomain) (l : List SendingDomain) :
    x ∈ sortByHealthDesc l ↔ x ∈ l := by
  induction l with
  | nil => simp [sortByHealthDesc]
  | cons d rest ih =>
    simp only [sortByHealthDesc, mem_insertByHealth, List.mem_cons, ih]

theorem pickSendingDomain_eq_none (s : Store) (now : Instant) (ws : Nat)
    (h : ∀ d ∈ s.domains, d.workspaceId = ws →
      d.warmupStatus = WarmupStatus.READY →
      d.dailySendLimit ≤ getDailyDomainSendCount s now d.id) :
    pickSendingDomain s now ws = none := by
  have hfind : (sortByHealthDesc (s.domains.filter (fun d =>
      d.workspaceId == ws && d.warmupStatus == WarmupStatus.READY))).find?
      (fun d => decide (getDailyDomainSendCount s now d.id < d.dailySendLimit))
      = none := by
    rw [List.find?_eq_none]
    intro x hx
    have hx2 : x ∈ s.domains.filter (fun d =>
        d.workspaceId == ws && d.warmupStatus == WarmupStatus.READY) :=
      (mem_sortByHealthDesc x _).mp hx
    obtain ⟨hmem, hcond⟩ := List.mem_filter.mp hx2
    simp only [Bool.and_eq_true, beq_iff_eq] at hcond
    have := h x hmem hcond.1 hcond.2
    simpa using Nat.not_lt.mpr this
  simp only [pickSendingDomain]
  rw [hfind]
  rfl

/-- Counterexample to C2 as stated: a claimed job whose outreach has no
assigned identity, processed inside the window while the workspace has no
READY identity at all, is NOT deferred to the next window — the email is
dispatched through the Outlook mailbox channel, the outreach becomes SENT
and the job COMPLETED. -/
theorem noIdentity_dispatches_counterexample :
    (findOutreach (processClaimedEmailJob defaultSendEnv cNow
        (Except.ok "mid") (Except.ok ("cv", "im")) cRand cStoreNoDomains
        cJob) 10).map Outreach.status = some OutreachStatus.SENT ∧
    (findJob (processClaimedEmailJob defaultSendEnv cNow (Except.ok "mid")
        (Except.ok ("cv", "im")) cRand cStoreNoDomains cJob) 1).map
      Job.status = some JobStatus.COMPLETED :=
  ⟨rfl, rfl⟩

/-- C2 amended: when the outreach has no assigned identity and the routing
policy finds no READY identity with remaining capacity in the workspace
of the campaign (`pickSendingDomain` returns none), the send cycle does not
defer: inside the sending window it falls back to the Outlook mailbox
channel, marks the outreach SENT with the returned message id, and
completes the job. -/
theorem noIdentity_fallsBack_to_mailbox (env : SendEnv) (now : Instant)
    (smtpResult : Except String String) (rand : FollowUpRand) (s : Store)
    (job : Job) (o : Outreach) (c : Contact) (cam : Campaign)
    (cv mid : String)
    (hload : loadOutreachFull s job.outreachId = some (o, c, some cam))
    (hdom : o.sendingDomainId = none)
    (hsat : ∀ d ∈ s.domains, d.workspaceId = cam.workspaceId →
      d.warmupStatus = WarmupStatus.READY →
      d.dailySendLimit ≤ getDailyDomainSendCount s now d.id)
    (hwin : ¬(hourOf now < env.windowStart ∨ env.windowEnd ≤ hourOf now))
    (hjob : findJob s job.id = some job) :
    pickSendingDomain s now cam.workspaceId = none ∧
    findOutreach (processClaimedEmailJob env now smtpResult
        (Except.ok (cv, mid)) rand s job) job.outreachId = some
      { o with
        status := OutreachStatus.SENT
        sentAt := some now
        internetMessageId := some mid } ∧
    (findJob (processClaimedEmailJob env now smtpResult (Except.ok (cv, mid))
        rand s job) job.id).map Job.status = some JobStatus.COMPLETED := by
  obtain ⟨ho, hoid, hc⟩ :=
    loadOutreachFull_parts s job.outreachId o c (some cam) hload
  have hpick : pickSendingDomain s now cam.workspaceId = none :=
    pickSendingDomain_eq_none s now cam.workspaceId hsat
  simp only [findOutreach] at ho
  rw [← hoid] at ho
  simp only [findJob] at hjob
  refine ⟨hpick, ?_, ?_⟩
  · rw [← hoid]
    simp only [processClaimedEmailJob, hload, hdom, hpick, Option.none_bind,
      Bool.false_eq_true, if_false, if_neg hwin, findOutreach_updateJob]
    cases htype : o.otype <;> (try simp only []) <;> split <;>
      (simp only [findOutreach, updateContact, updateOutreach,
        List.find?_append]
       rw [find?_updListBy_self Outreach.id o.id] <;>
         first
         | (intro x; rfl)
         | (rw [ho]; simp [hdom, htype]))
  · simp only [processClaimedEmailJob, hload, hdom, hpick, Option.none_bind,
      Bool.false_eq_true, if_false, if_neg hwin]
    cases htype : o.otype <;> (try simp only []) <;> split <;>
      (simp only [findJob, updateJob, updateContact, updateOutreach]
       rw [find?_updListBy_self Job.id job.id] <;>
         first
         | (intro x; rfl)
         | (rw [hjob]; rfl))

/-- Witness for the amended C2: the no-domain store dispatches via Outlook. -/
theorem noIdentity_fallsBack_to_mailbox_witness :
    pickSendingDomain cStoreNoDomains cNow cCampaign.workspaceId = none ∧
    findOutreach (processClaimedEmailJob defaultSendEnv cNow
        (Except.ok "mid") (Except.ok ("cv", "im")) cRand cStoreNoDomains
        cJob) cJob.outreachId = some
      { cOutreach with
        status := OutreachStatus.SENT
        sentAt := some cNow
        internetMessageId := some "im" } ∧
    (findJob (processClaimedEmailJob defaultSendEnv cNow (Except.ok "mid")
        (Except.ok ("cv", "im")) cRand cStoreNoDomains cJob) cJob.id).map
      Job.status = some JobStatus.COMPLETED :=
  noIdentity_fallsBack_to_mailbox defaultSendEnv cNow (Except.ok "mid") cRand
    cStoreNoDomains cJob cOutreach cContact cCampaign "cv" "im" (by rfl)
    (by rfl) (by intro d hd; simp [cStoreNoDomains] at hd) (by decide)
    (by rfl)

theorem nextOutreachId_after_update (jb : List Job) (ct : List Contact)
    (cp : List Campaign) (dm : List SendingDomain) (lg : List WarmupLog)
    (i : Nat) (f : Outreach → Outreach) (l : List Outreach)
    (hf : ∀ x, (f x).id = x.id) :
    nextOutreachId ⟨jb, updListBy Outreach.id i f l, ct, cp, dm, lg⟩ =
      (l.map (fun o => o.id)).foldr max 0 + 1 := by
  show (List.map (fun o => o.id) (updListBy Outreach.id i f l)).foldr max 0 + 1
    = _
  rw [map_updListBy (fun o => o.id) Outreach.id i f l hf]

theorem map_id_updListBy_sent (now2 : Instant) (mid2 : String) (i : Nat)
    (l : List Outreach) :
    List.map (fun o => o.id) (updListBy Outreach.id i (fun o =>
      { o with
        status := OutreachStatus.SENT
        sentAt := some now2
        internetMessageId := some mid2 }) l) = List.map (fun o => o.id) l :=
  map_updListBy _ _ _ _ _ (fun x => rfl)

theorem followUpOffset_bounds (env : SendEnv) (h m : Nat) :
    env.windowStart * msPerHour ≤ followUpOffset env h m ∧
    followUpOffset env h m < (env.windowStart + 2) * msPerHour := by
  refine ⟨?_, ?_⟩ <;>
    (simp only [followUpOffset, msPerHour, msPerMinute]; omega)

/-- C6: a successful dispatch of an INITIAL outreach whose campaign
cadence resolves to the default offsets 5 and 14 appends exactly two new
outreach rows — FOLLOWUP_1 scheduled 5 days out and FOLLOWUP_2 scheduled
14 days out, both SCHEDULED, both referencing the parent, each at a
randomized minute within the first two hours of the sending window. -/
theorem initialSend_creates_two_followUps (env : SendEnv) (now : Instant)
    (outlookResult : Except String (String × String)) (rand : FollowUpRand)
    (s : Store) (job : Job) (o : Outreach) (c : Contact) (cam : Campaign)
    (did : Nat) (d : SendingDomain) (mid : String)
    (hload : loadOutreachFull s job.outreachId = some (o, c, some cam))
    (htype : o.otype = OutreachType.INITIAL)
    (hcad1 : cam.followUp1Days.getD 5 = 5)
    (hcad2 : cam.followUp2Days.getD 14 = 14)
    (hdom : o.sendingDomainId = some did)
    (hd : findDomain s did = some d)
    (hcap : getDailyDomainSendCount s now did < d.dailySendLimit)
    (hwin : ¬(hourOf now < env.windowStart ∨ env.windowEnd ≤ hourOf now))
    (hsm : (d.smtpHost.isSome && d.smtpUser.isSome && d.smtpPass.isSome)
      = true) :
    (processClaimedEmailJob env now (Except.ok mid) outlookResult rand s
        job).outreaches =
      updListBy Outreach.id o.id (fun x =>
        { x with
          status := OutreachStatus.SENT
          sentAt := some now
          internetMessageId := some mid }) s.outreaches ++
      [followUpRow (nextOutreachId s) o OutreachType.FOLLOWUP_1
         (followUpAt env now 5 rand.r1h rand.r1m),
       followUpRow (nextOutreachId s + 1) o OutreachType.FOLLOWUP_2
         (followUpAt env now 14 rand.r2h rand.r2m)] ∧
    (followUpRow (nextOutreachId s) o OutreachType.FOLLOWUP_1
        (followUpAt env now 5 rand.r1h rand.r1m)).status =
      OutreachStatus.SCHEDULED ∧
    (followUpRow (nextOutreachId s) o OutreachType.FOLLOWUP_1
        (followUpAt env now 5 rand.r1h rand.r1m)).parentOutreachId =
      some o.id ∧
    (followUpRow (nextOutreachId s + 1) o OutreachType.FOLLOWUP_2
        (followUpAt env now 14 rand.r2h rand.r2m)).status =
      OutreachStatus.SCHEDULED ∧
    (followUpRow (nextOutreachId s + 1) o OutreachType.FOLLOWUP_2
        (followUpAt env now 14 rand.r2h rand.r2m)).parentOutreachId =
      some o.id ∧
    followUpAt env now 5 rand.r1h rand.r1m =
      startOfDay now + 5 * msPerDay + followUpOffset env rand.r1h rand.r1m ∧
    followUpAt env now 14 rand.r2h rand.r2m =
      startOfDay now + 14 * msPerDay + followUpOffset env rand.r2h rand.r2m ∧
    (env.windowStart * msPerHour ≤ followUpOffset env rand.r1h rand.r1m ∧
      followUpOffset env rand.r1h rand.r1m <
        (env.windowStart + 2) * msPerHour) ∧
    (env.windowStart * msPerHour ≤ followUpOffset env rand.r2h rand.r2m ∧
      followUpOffset env rand.r2h rand.r2m <
        (env.windowStart + 2) * msPerHour) := by
  refine ⟨?_, rfl, rfl, rfl, rfl, rfl, rfl,
    followUpOffset_bounds env rand.r1h rand.r1m,
    followUpOffset_bounds env rand.r2h rand.r2m⟩
  simp only [processClaimedEmailJob, hload, hdom, hd, Option.some_bind,
    decide_eq_false (Nat.not_le.mpr hcap), Bool.false_eq_true, if_false,
    if_neg hwin, hsm, if_true, htype, hcad1, hcad2]
  simp only [updateJob, updateContact, updateOutreach]
  split <;>
    simp only [nextOutreachId, map_id_updListBy_sent]

/-- Witness for C6 on the assigned-identity store at hour 10. -/
theorem initialSend_creates_two_followUps_witness :
    (processClaimedEmailJob defaultSendEnv cNow (Except.ok "mid")
        (Except.ok ("cv", "im")) cRand cStoreAssigned cJob).outreaches =
      updListBy Outreach.id cOutreachAssigned.id (fun x =>
        { x with
          status := OutreachStatus.SENT
          sentAt := some cNow
          internetMessageId := some "mid" }) cStoreAssigned.outreaches ++
      [followUpRow (nextOutreachId cStoreAssigned) cOutreachAssigned
         OutreachType.FOLLOWUP_1
         (followUpAt defaultSendEnv cNow 5 cRand.r1h cRand.r1m),
       followUpRow (nextOutreachId cStoreAssigned + 1) cOutreachAssigned
         OutreachType.FOLLOWUP_2
         (followUpAt defaultSendEnv cNow 14 cRand.r2h cRand.r2m)] ∧
    (followUpRow (nextOutreachId cStoreAssigned) cOutreachAssigned
        OutreachType.FOLLOWUP_1
        (followUpAt defaultSendEnv cNow 5 cRand.r1h cRand.r1m)).status =
      OutreachStatus.SCHEDULED ∧
    (followUpRow (nextOutreachId cStoreAssigned) cOutreachAssigned
        OutreachType.FOLLOWUP_1
        (followUpAt defaultSendEnv cNow 5 cRand.r1h cRand.r1m)).parentOutreachId
      = some cOutreachAssigned.id ∧
    (followUpRow (nextOutreachId cStoreAssigned + 1) cOutreachAssigned
        OutreachType.FOLLOWUP_2
        (followUpAt defaultSendEnv cNow 14 cRand.r2h cRand.r2m)).status =
      OutreachStatus.SCHEDULED ∧
    (followUpRow (nextOutreachId cStoreAssigned + 1) cOutreachAssigned
        OutreachType.FOLLOWUP_2
        (followUpAt defaultSendEnv cNow 14 cRand.r2h cRand.r2m)).parentOutreachId
      = some cOutreachAssigned.id ∧
    followUpAt defaultSendEnv cNow 5 cRand.r1h cRand.r1m =
      startOfDay cNow + 5 * msPerDay +
        followUpOffset defaultSendEnv cRand.r1h cRand.r1m ∧
    followUpAt defaultSendEnv cNow 14 cRand.r2h cRand.r2m =
      startOfDay cNow + 14 * msPerDay +
        followUpOffset defaultSendEnv cRand.r2h cRand.r2m ∧
    (defaultSendEnv.windowStart * msPerHour ≤
        followUpOffset defaultSendEnv cRand.r1h cRand.r1m ∧
      followUpOffset defaultSendEnv cRand.r1h cRand.r1m <
        (defaultSendEnv.windowStart + 2) * msPerHour) ∧
    (defaultSendEnv.windowStart * msPerHour ≤
        followUpOffset defaultSendEnv cRand.r2h cRand.r2m ∧
      followUpOffset defaultSendEnv cRand.r2h cRand.r2m <
        (defaultSendEnv.windowStart + 2) * msPerHour) :=
  initialSend_creates_two_followUps defaultSendEnv cNow
    (Except.ok ("cv", "im")) cRand cStoreAssigned cJob cOutreachAssigned
    cContact cCampaign 4 cDomain "mid" (by rfl) (by rfl) (by rfl) (by rfl)
    (by rfl) (by rfl) (by decide) (by decide) (by rfl)

theorem processDueFollowUp_contacts (gen : Nat → Except String GeneratedEmail)
    (s : Store) (o : Outreach) :
    (processDueFollowUp gen s o).contacts = s.contacts := by
  unfold processDueFollowUp
  split
  · rfl
  · split
    · rfl
    · split
      · rfl
      · rfl

theorem findOutreach_processDueFollowUp_other
    (gen : Nat → Except String GeneratedEmail) (s : Store) (o : Outreach)
    (k : Nat) (hk : k ≠ o.id) :
    findOutreach (processDueFollowUp gen s o) k = findOutreach s k := by
  unfold processDueFollowUp
  split
  · rfl
  · split
    · simp only [findOutreach, updateOutreach]
      rw [find?_updListBy_other Outreach.id o.id k] <;>
        first
        | exact hk
        | (intro x; rfl)
        | rfl
    · split
      · rfl
      · simp only [findOutreach, updateOutreach]
        rw [find?_updListBy_other Outreach.id o.id k] <;>
          first
          | exact hk
          | (intro x; rfl)
          | rfl

theorem foldl_processDueFollowUp_contacts
    (gen : Nat → Except String GeneratedEmail) (l : List Outreach)
    (s : Store) :
    (l.foldl (processDueFollowUp gen) s).contacts = s.contacts := by
  induction l generalizing s with
  | nil => rfl
  | cons a l ih =>
    rw [List.foldl_cons, ih, processDueFollowUp_contacts]

theorem findOutreach_foldl_processDueFollowUp_other
    (gen : Nat → Except String GeneratedEmail) (l : List Outreach)
    (s : Store) (k : Nat) (h : ∀ o ∈ l, o.id ≠ k) :
    findOutreach (l.foldl (processDueFollowUp gen) s) k = findOutreach s k := by
  induction l generalizing s with
  | nil => rfl
  | cons a l ih =>
    rw [List.foldl_cons, ih _ (fun o ho => h o (List.mem_cons_of_mem a ho)),
      findOutreach_processDueFollowUp_other gen s a k
        (Ne.symm (h a (List.mem_cons_self a l)))]

/-- C10: a due SCHEDULED follow-up whose contact has engaged (REPLIED,
NOT_INTERESTED, MEETING_SCHEDULED or CONVERTED) is set to CANCELLED by the
hourly follow-up pass, with no draft content generated or stored on it
(all content fields keep their prior values). -/
theorem dueFollowUp_stoppedContact_cancelled
    (gen : Nat → Except String GeneratedEmail) (now : Instant) (s : Store)
    (o : Outreach) (c : Contact)
    (hnd : (s.outreaches.map (fun o => o.id)).Nodup)
    (ho : o ∈ dueFollowUps s now)
    (hc : findContact s o.contactId = some c)
    (hstop : stopFollowUpStatus c.status = true) :
    findOutreach (jobProcessFollowUps gen now s) o.id =
      some { o with status := OutreachStatus.CANCELLED } := by
  have hsub : List.Sublist (dueFollowUps s now) s.outreaches :=
    (List.take_sublist 10 _).trans (List.filter_sublist _)
  have hmemS : o ∈ s.outreaches := hsub.subset ho
  have hndl : ((dueFollowUps s now).map (fun o => o.id)).Nodup :=
    List.Nodup.sublist (hsub.map _) hnd
  obtain ⟨l1, l2, hl⟩ := List.append_of_mem ho
  rw [hl, List.map_append, List.map_cons] at hndl
  obtain ⟨hn1, hn2, hdisj⟩ := List.nodup_append.mp hndl
  have h1 : ∀ x ∈ l1, x.id ≠ o.id := by
    intro x hx he
    refine hdisj (List.mem_map_of_mem _ hx) ?_
    rw [he]
    exact List.mem_cons_self _ _
  have h2 : ∀ x ∈ l2, x.id ≠ o.id := by
    intro x hx he
    exact (List.nodup_cons.mp hn2).1 (he ▸ List.mem_map_of_mem _ hx)
  unfold jobProcessFollowUps
  rw [hl, List.foldl_append, List.foldl_cons]
  set sA := List.foldl (processDueFollowUp gen) s l1 with hsA
  have hcA : findContact sA o.contactId = some c := by
    simp only [findContact] at hc ⊢
    rw [hsA, foldl_processDueFollowUp_contacts]
    exact hc
  have hoA : findOutreach sA o.id = some o := by
    rw [hsA, findOutreach_foldl_processDueFollowUp_other gen l1 s o.id h1]
    simp only [findOutreach]
    exact find?_key_of_mem_nodup (fun o => o.id) s.outreaches o hmemS hnd
  have hstep : processDueFollowUp gen sA o = updateOutreach sA o.id
      (fun x => { x with status := OutreachStatus.CANCELLED }) := by
    unfold processDueFollowUp
    rw [hcA]
    simp only []
    rw [if_pos hstop]
  rw [hstep, findOutreach_foldl_processDueFollowUp_other gen l2 _ o.id h2,
    findOutreach_updateOutreach_self sA o.id
      (fun x => { x with status := OutreachStatus.CANCELLED })
      (fun x => rfl), hoA]
  rfl

/-- Witness for C10: a due FOLLOWUP_1 of a REPLIED contact is cancelled. -/
theorem dueFollowUp_stoppedContact_cancelled_witness :
    findOutreach (jobProcessFollowUps (fun _ => Except.error "skip") cNow
        cStoreDue) cFollowUp.id =
      some { cFollowUp with status := OutreachStatus.CANCELLED } :=
  dueFollowUp_stoppedContact_cancelled (fun _ => Except.error "skip") cNow
    cStoreDue cFollowUp cContactReplied (by decide) (by decide) (by rfl)
    (by rfl)

theorem filter_map_eq_of {α : Type} (p : α → Bool) (g : α → α) (l : List α)
    (h1 : ∀ x, p (g x) = p x) (h2 : ∀ x, p x = true → g x = x) :
    (l.map g).filter p = l.filter p := by
  induction l with
  | nil => rfl
  | cons a l ih =>
    simp only [List.map_cons, List.filter_cons]
    cases hp : p a with
    | false =>
      rw [h1 a, hp]
      simpa using ih
    | true =>
      rw [h1 a, hp, h2 a hp]
      simpa using ih

theorem upsertWarmupLog_filter_other (s : Store) (did : Nat) (date : Instant)
    (sent bounces hs k : Nat) (hk : k ≠ did) :
    (upsertWarmupLog s did date sent bounces hs).warmupLogs.filter
      (fun l => l.sendingDomainId == k) =
      s.warmupLogs.filter (fun l => l.sendingDomainId == k) := by
  unfold upsertWarmupLog
  split
  · show (s.warmupLogs.map _).filter _ = _
    apply filter_map_eq_of
    · intro x
      by_cases hx : x.sendingDomainId = did ∧ x.date = date
      · rw [if_pos hx]
      · rw [if_neg hx]
    · intro x hpx
      have hxk : x.sendingDomainId = k := by simpa [beq_iff_eq] using hpx
      have : ¬(x.sendingDomainId = did ∧ x.date = date) := by
        intro hcon
        exact hk (hxk ▸ hcon.1)
      rw [if_neg this]
  · show (s.warmupLogs ++ _).filter _ = _
    rw [List.filter_append]
    have hne : ((⟨did, date, sent, bounces, hs⟩ :
        WarmupLog).sendingDomainId == k) = false := by
      simp only [beq_eq_false_iff_ne]
      exact fun h => hk h.symm
    have hsing : List.filter (fun l => l.sendingDomainId == k)
        [(⟨did, date, sent, bounces, hs⟩ : WarmupLog)] = [] := by
      simp [List.filter_cons, hne]
    rw [hsing, List.append_nil]

theorem warmupDomainStep_frame (wrand : Nat → WarmupRand) (today : Instant)
    (s : Store) (e : SendingDomain) (k : Nat) (hk : k ≠ e.id) :
    findDomain (warmupDomainStep wrand today s e).1 k = findDomain s k ∧
    (warmupDomainStep wrand today s e).1.warmupLogs.filter
      (fun l => l.sendingDomainId == k) =
      s.warmupLogs.filter (fun l => l.sendingDomainId == k) ∧
    (warmupDomainStep wrand today s e).2.filter (fun i => i == k) = [] ∧
    domKeys (warmupDomainStep wrand today s e).1 = domKeys s := by
  simp only [warmupDomainStep]
  split
  · refine ⟨?_, rfl, rfl, ?_⟩
    · simp only [findDomain, updateDomain]
      rw [find?_updListBy_other SendingDomain.id e.id k] <;>
        first
        | exact hk
        | (intro x; rfl)
        | rfl
    · simp only [domKeys, updateDomain]
      exact map_updListBy _ SendingDomain.id e.id _ s.domains (fun x => rfl)
  · split
    · exact ⟨rfl, rfl, rfl, rfl⟩
    · split
      · refine ⟨?_, ?_, ?_, ?_⟩
        · simp only [findDomain, upsertWarmupLog_domains, updateDomain]
          rw [find?_updListBy_other SendingDomain.id e.id k] <;>
            first
            | exact hk
            | (intro x; rfl)
            | rfl
        · rw [upsertWarmupLog_filter_other _ _ _ _ _ _ _ hk]
          rfl
        · rw [List.filter_eq_nil_iff]
          intro a ha
          obtain ⟨i, hi, rfl⟩ := List.mem_map.mp ha
          simp only [beq_iff_eq]
          exact fun h => hk h.symm
        · simp only [domKeys, upsertWarmupLog_domains, updateDomain]
          exact map_updListBy _ SendingDomain.id e.id _ s.domains
            (fun x => rfl)
      · exact ⟨rfl, rfl, rfl, rfl⟩

theorem warmupFold_frame (wrand : Nat → WarmupRand) (today : Instant)
    (l : List SendingDomain) (k : Nat) (hk : ∀ e ∈ l, e.id ≠ k) :
    ∀ (s : Store) (tr : List Nat),
    findDomain (l.foldl (fun acc d =>
        ((warmupDomainStep wrand today acc.1 d).1,
         acc.2 ++ (warmupDomainStep wrand today acc.1 d).2)) (s, tr)).1 k
      = findDomain s k ∧
    (l.foldl (fun acc d =>
        ((warmupDomainStep wrand today acc.1 d).1,
         acc.2 ++ (warmupDomainStep wrand today acc.1 d).2))
        (s, tr)).1.warmupLogs.filter (fun x => x.sendingDomainId == k) =
      s.warmupLogs.filter (fun x => x.sendingDomainId == k) ∧
    (l.foldl (fun acc d =>
        ((warmupDomainStep wrand today acc.1 d).1,
         acc.2 ++ (warmupDomainStep wrand today acc.1 d).2)) (s, tr)).2.filter
        (fun i => i == k) = tr.filter (fun i => i == k) ∧
    domKeys (l.foldl (fun acc d =>
        ((warmupDomainStep wrand today acc.1 d).1,
         acc.2 ++ (warmupDomainStep wrand today acc.1 d).2)) (s, tr)).1 =
      domKeys s := by
  induction l with
  | nil => exact fun s tr => ⟨rfl, rfl, rfl, rfl⟩
  | cons e l ih =>
    intro s tr
    have hek : k ≠ e.id := Ne.symm (hk e (List.mem_cons_self e l))
    obtain ⟨f1, f2, f3, f4⟩ := warmupDomainStep_frame wrand today s e k hek
    obtain ⟨g1, g2, g3, g4⟩ := ih (fun x hx => hk x (List.mem_cons_of_mem e hx))
      (warmupDomainStep wrand today s e).1
      (tr ++ (warmupDomainStep wrand today s e).2)
    rw [List.foldl_cons]
    refine ⟨?_, ?_, ?_, ?_⟩
    · rw [g1, f1]
    · rw [g2, f2]
    · rw [g3, List.filter_append, f3, List.append_nil]
    · rw [g4, f4]

theorem warmupDomainStep_noop_of_noSiblings (wrand : Nat → WarmupRand)
    (today : Instant) (s : Store) (d : SendingDomain)
    (hday : d.warmupDayNumber + 1 ≤ 28)
    (hsib : s.domains.filter (fun x =>
      x.workspaceId == d.workspaceId && x.id != d.id) = []) :
    warmupDomainStep wrand today s d = (s, []) := by
  simp only [warmupDomainStep]
  rw [if_neg (Nat.not_lt.mpr hday), hsib]
  rfl

theorem filter_siblings_empty (w s : Store) (d : SendingDomain)
    (hkeys : domKeys w = domKeys s)
    (hsib : ∀ e ∈ s.domains, e.workspaceId = d.workspaceId → e.id = d.id) :
    w.domains.filter (fun x =>
      x.workspaceId == d.workspaceId && x.id != d.id) = [] := by
  rw [List.filter_eq_nil_iff]
  intro x hx hcond
  simp only [Bool.and_eq_true, beq_iff_eq, bne_iff_ne] at hcond
  have hxmem : (x.id, x.workspaceId) ∈ domKeys s := by
    rw [← hkeys]
    exact List.mem_map_of_mem _ hx
  obtain ⟨y, hy, hxy⟩ := List.mem_map.mp hxmem
  have hid : y.id = x.id := congrArg Prod.fst hxy
  have hws : y.workspaceId = x.workspaceId := congrArg Prod.snd hxy
  have : y.id = d.id := hsib y hy (hws.trans hcond.1)
  exact hcond.2 (hid.symm.trans this)

/-- C9: for a WARMING identity whose ramp day (`warmupDayNumber + 1`) has
not passed 28 and whose workspace holds no other sending identity, one
warmup cycle performs zero synthetic sends from it, leaves its stored
record (day counter, daily limit, health score, cumulative counters)
unchanged, and writes no WarmupLog row for it. -/
theorem warmupCycle_noop_for_isolated_warming (wrand : Nat → WarmupRand)
    (today : Instant) (s : Store) (d : SendingDomain)
    (hnd : (s.domains.map (fun x => x.id)).Nodup)
    (hmem : d ∈ s.domains)
    (hw : d.warmupStatus = WarmupStatus.WARMING)
    (hday : d.warmupDayNumber + 1 ≤ 28)
    (hsib : ∀ e ∈ s.domains, e.workspaceId = d.workspaceId → e.id = d.id) :
    findDomain (runWarmupCycle wrand today s).1 d.id = some d ∧
    (runWarmupCycle wrand today s).1.warmupLogs.filter
      (fun l => l.sendingDomainId == d.id) =
      s.warmupLogs.filter (fun l => l.sendingDomainId == d.id) ∧
    (runWarmupCycle wrand today s).2.filter (fun i => i == d.id) = [] := by
  have hds : findDomain s d.id = some d := by
    simp only [findDomain]
    exact find?_key_of_mem_nodup (fun x => x.id) s.domains d hmem hnd
  have hmw : d ∈ s.domains.filter (fun x =>
      x.warmupStatus == WarmupStatus.WARMING) :=
    List.mem_filter.mpr ⟨hmem, by simp [hw]⟩
  have hsubw : List.Sublist (s.domains.filter (fun x =>
      x.warmupStatus == WarmupStatus.WARMING)) s.domains :=
    List.filter_sublist _
  have hndw : ((s.domains.filter (fun x =>
      x.warmupStatus == WarmupStatus.WARMING)).map (fun x => x.id)).Nodup :=
    List.Nodup.sublist (hsubw.map _) hnd
  obtain ⟨l1, l2, hl⟩ := List.append_of_mem hmw
  rw [hl, List.map_append, List.map_cons] at hndw
  obtain ⟨hn1, hn2, hdisj⟩ := List.nodup_append.mp hndw
  have h1 : ∀ x ∈ l1, x.id ≠ d.id := by
    intro x hx he
    refine hdisj (List.mem_map_of_mem _ hx) ?_
    rw [he]
    exact List.mem_cons_self _ _
  have h2 : ∀ x ∈ l2, x.id ≠ d.id := by
    intro x hx he
    exact (List.nodup_cons.mp hn2).1 (he ▸ List.mem_map_of_mem _ hx)
  obtain ⟨g1, g2, g3, g4⟩ := warmupFold_frame wrand today l1 d.id h1 s []
  unfold runWarmupCycle
  rw [hl, List.foldl_append, List.foldl_cons]
  have hstep : warmupDomainStep wrand today
      (List.foldl (fun acc d =>
        ((warmupDomainStep wrand today acc.1 d).1,
         acc.2 ++ (warmupDomainStep wrand today acc.1 d).2)) (s, []) l1).1 d
      = ((List.foldl (fun acc d =>
          ((warmupDomainStep wrand today acc.1 d).1,
           acc.2 ++ (warmupDomainStep wrand today acc.1 d).2))
          (s, []) l1).1, []) :=
    warmupDomainStep_noop_of_noSiblings wrand today _ d hday
      (filter_siblings_empty _ s d g4 hsib)
  rw [hstep]
  simp only [List.append_nil]
  obtain ⟨k1, k2, k3, k4⟩ := warmupFold_frame wrand today l2 d.id h2
    (List.foldl (fun acc d =>
      ((warmupDomainStep wrand today acc.1 d).1,
       acc.2 ++ (warmupDomainStep wrand today acc.1 d).2)) (s, []) l1).1
    (List.foldl (fun acc d =>
      ((warmupDomainStep wrand today acc.1 d).1,
       acc.2 ++ (warmupDomainStep wrand today acc.1 d).2)) (s, []) l1).2
  refine ⟨?_, ?_, ?_⟩
  · rw [k1, g1, hds]
  · rw [k2, g2]
  · rw [k3, g3]
    rfl

/-- Witness for C9: a lone WARMING identity on ramp day 4 of its workspace. -/
theorem warmupCycle_noop_for_isolated_warming_witness :
    findDomain (runWarmupCycle (fun _ => ⟨0, fun _ => false⟩) cNow
        cStoreWarm).1 cDomainWarm.id = some cDomainWarm ∧
    (runWarmupCycle (fun _ => ⟨0, fun _ => false⟩) cNow
        cStoreWarm).1.warmupLogs.filter
        (fun l => l.sendingDomainId == cDomainWarm.id) =
      cStoreWarm.warmupLogs.filter
        (fun l => l.sendingDomainId == cDomainWarm.id) ∧
    (runWarmupCycle (fun _ => ⟨0, fun _ => false⟩) cNow cStoreWarm).2.filter
      (fun i => i == cDomainWarm.id) = [] :=
  warmupCycle_noop_for_isolated_warming (fun _ => ⟨0, fun _ => false⟩) cNow
    cStoreWarm cDomainWarm (by decide) (by decide) (by rfl) (by decide)
    (by decide)

end Athena
